import Mathlib

/-!
Shallow embedding of the `sortpy` indexing-and-cataloging engine
(`src/sortpy/index.py`, `src/sortpy/database.py`, `src/sortpy/file_info.py`)
and proofs about it.

Conventions of the embedding:
* Python exceptions become `Except PyError`; the distinct Python exception
  classes that the code can raise are the constructors of `PyError`.
* File bytes are `List Nat` (each entry a byte value; byte assembly reduces
  values mod 256 exactly where the byte interpretation matters).
* Strings are Lean `String`s; regular-expression matching is embedded
  positionally (all quantifiers in the source patterns are fixed-width, so
  each pattern denotes a deterministic positional test on the character
  list).  `\d` and `int()` are modelled on the ASCII digit range, and the
  unescaped `.` of rule 1 is modelled as Python `re` specifies it: any
  single character except a newline.
-/

set_option autoImplicit false
set_option maxRecDepth 100000

namespace SortPy

/-- Python exception classes that the embedded code can raise. -/
inductive PyError where
  | valueError
  | ioError
  | connectionError
  | attributeError
  | typeError
  | operationalError
  deriving DecidableEq, Repr

/-- A `datetime.datetime` value (second granularity, as produced by the code). -/
structure Datetime where
  year : Nat
  month : Nat
  day : Nat
  hour : Nat
  minute : Nat
  second : Nat
  deriving DecidableEq, Repr

/-- Gregorian leap-year test, as used by `datetime`. -/
def isLeap (y : Nat) : Bool :=
  (y % 4 == 0 && y % 100 != 0) || y % 400 == 0

/-- Days in a month, as validated by the `datetime` constructor. -/
def daysInMonth (y m : Nat) : Nat :=
  if m = 2 then (if isLeap y then 29 else 28)
  else if m = 4 ∨ m = 6 ∨ m = 9 ∨ m = 11 then 30
  else 31

/-- The `datetime(year, month, day, hour, minute, second)` constructor:
returns the value, or raises `ValueError` when the fields do not form a
valid calendar date/time (year outside 1..9999, month outside 1..12, day
outside the month, hour ≥ 24, minute or second ≥ 60). -/
def mkDatetime (y mo d h mi s : Nat) : Except PyError Datetime :=
  if 1 ≤ y ∧ y ≤ 9999 ∧ 1 ≤ mo ∧ mo ≤ 12 ∧ 1 ≤ d ∧ d ≤ daysInMonth y mo
      ∧ h ≤ 23 ∧ mi ≤ 59 ∧ s ≤ 59 then
    .ok ⟨y, mo, d, h, mi, s⟩
  else
    .error .valueError

/-- Zero-padded decimal rendering used by `datetime.isoformat`. -/
def pad2 (n : Nat) : String :=
  if n < 10 then "0" ++ toString n else toString n

/-- Zero-padded 4-digit year rendering used by `datetime.isoformat`. -/
def pad4 (n : Nat) : String :=
  if n < 10 then "000" ++ toString n
  else if n < 100 then "00" ++ toString n
  else if n < 1000 then "0" ++ toString n
  else toString n

/-- `datetime.isoformat()` for second-granularity values. -/
def isoformat (d : Datetime) : String :=
  pad4 d.year ++ "-" ++ pad2 d.month ++ "-" ++ pad2 d.day ++ "T"
    ++ pad2 d.hour ++ ":" ++ pad2 d.minute ++ ":" ++ pad2 d.second

/-! ### String helpers (`str.lower`, `pathlib.PurePath.suffix`) -/

/-- `str.lower`, restricted to the ASCII range (the source's extension sets
are ASCII, and `str.lower` agrees with ASCII lowercasing on ASCII input). -/
def pyLowerChar (c : Char) : Char :=
  if 'A' ≤ c ∧ c ≤ 'Z' then Char.ofNat (c.toNat + 32) else c

/-- `str.lower` on a whole string. -/
def pyLower (s : String) : String :=
  ⟨s.data.map pyLowerChar⟩

/-- Index of the last `'.'` in a character list (`str.rfind('.')`). -/
def rfindDotAux : List Char → Nat → Option Nat → Option Nat
  | [], _, acc => acc
  | c :: cs, i, acc => rfindDotAux cs (i + 1) (if c = '.' then some i else acc)

/-- `pathlib.PurePath.suffix` on a file name: the substring from the last
dot, provided that dot is neither the first nor the last character;
otherwise the empty string. -/
def pySuffix (name : String) : String :=
  match rfindDotAux name.data 0 none with
  | some i => if 0 < i ∧ i < name.length - 1 then ⟨name.data.drop i⟩ else ""
  | none => ""

/-! ### The timestamp regexes of `index.py` (`TIMESTAMP_REGEX`)

Each entry of `TIMESTAMP_REGEX` is matched with `re.match`, i.e. anchored
at the start of the filename and free at the end.  Every pattern is built
from fixed-width pieces only, so matching is a positional test; a match
yields the six captured groups. -/

/-- The six captured groups of a timestamp rule. -/
structure TSGroups where
  year : Nat
  month : Nat
  day : Nat
  hour : Nat
  minute : Nat
  second : Nat
  deriving DecidableEq, Repr

/-- Numeric value of an ASCII digit character. -/
def dv (c : Char) : Nat := c.toNat - 48

/-- Rule 1 of `TIMESTAMP_REGEX`:
`(?P<year>\d{4})-(?P<month>\d{2})-(?P<day>\d{2}) (?P<hour>\d{2}).(?P<minute>\d{2}).(?P<second>\d{2})`.
The two separators after the hour and the minute are the unescaped regex
`.`, which matches any single character except a newline. -/
def matchRule1 (cs : List Char) : Option TSGroups :=
  match cs with
  | y1 :: y2 :: y3 :: y4 :: '-' :: m1 :: m2 :: '-' :: d1 :: d2 :: ' '
      :: h1 :: h2 :: p1 :: n1 :: n2 :: p2 :: s1 :: s2 :: _ =>
    if y1.isDigit && y2.isDigit && y3.isDigit && y4.isDigit
        && m1.isDigit && m2.isDigit && d1.isDigit && d2.isDigit
        && h1.isDigit && h2.isDigit && p1 != '\n'
        && n1.isDigit && n2.isDigit && p2 != '\n'
        && s1.isDigit && s2.isDigit then
      some ⟨dv y1 * 1000 + dv y2 * 100 + dv y3 * 10 + dv y4,
            dv m1 * 10 + dv m2, dv d1 * 10 + dv d2,
            dv h1 * 10 + dv h2, dv n1 * 10 + dv n2, dv s1 * 10 + dv s2⟩
    else none
  | _ => none

/-- Rule 2 of `TIMESTAMP_REGEX`:
`(?P<year>\d{4})(?P<month>\d{2})(?P<day>\d{2})_(?P<hour>\d{2})(?P<minute>\d{2})(?P<second>\d{2})`. -/
def matchRule2 (cs : List Char) : Option TSGroups :=
  match cs with
  | y1 :: y2 :: y3 :: y4 :: m1 :: m2 :: d1 :: d2 :: '_'
      :: h1 :: h2 :: n1 :: n2 :: s1 :: s2 :: _ =>
    if y1.isDigit && y2.isDigit && y3.isDigit && y4.isDigit
        && m1.isDigit && m2.isDigit && d1.isDigit && d2.isDigit
        && h1.isDigit && h2.isDigit && n1.isDigit && n2.isDigit
        && s1.isDigit && s2.isDigit then
      some ⟨dv y1 * 1000 + dv y2 * 100 + dv y3 * 10 + dv y4,
            dv m1 * 10 + dv m2, dv d1 * 10 + dv d2,
            dv h1 * 10 + dv h2, dv n1 * 10 + dv n2, dv s1 * 10 + dv s2⟩
    else none
  | _ => none

/-- The part of rule 3 after the device prefix:
`_(?P<year>\d{4})(?P<month>\d{2})(?P<day>\d{2})_(?P<hour>\d{2})(?P<minute>\d{2})(?P<second>\d{2})(_\d)*`.
The trailing `(_\d)*` imposes nothing on whether the match succeeds. -/
def matchRule3Core (cs : List Char) : Option TSGroups :=
  match cs with
  | '_' :: y1 :: y2 :: y3 :: y4 :: m1 :: m2 :: d1 :: d2 :: '_'
      :: h1 :: h2 :: n1 :: n2 :: s1 :: s2 :: _ =>
    if y1.isDigit && y2.isDigit && y3.isDigit && y4.isDigit
        && m1.isDigit && m2.isDigit && d1.isDigit && d2.isDigit
        && h1.isDigit && h2.isDigit && n1.isDigit && n2.isDigit
        && s1.isDigit && s2.isDigit then
      some ⟨dv y1 * 1000 + dv y2 * 100 + dv y3 * 10 + dv y4,
            dv m1 * 10 + dv m2, dv d1 * 10 + dv d2,
            dv h1 * 10 + dv h2, dv n1 * 10 + dv n2, dv s1 * 10 + dv s2⟩
    else none
  | _ => none

/-- Rule 3 of `TIMESTAMP_REGEX`: `(IMG|video|MVIMG|VID)_...`.  The four
literal alternatives are pairwise non-overlapping as prefixes, so trying
them in order is exactly Python's left-to-right alternation. -/
def matchRule3 (cs : List Char) : Option TSGroups :=
  match cs with
  | 'I' :: 'M' :: 'G' :: rest => matchRule3Core rest
  | 'v' :: 'i' :: 'd' :: 'e' :: 'o' :: rest => matchRule3Core rest
  | 'M' :: 'V' :: 'I' :: 'M' :: 'G' :: rest => matchRule3Core rest
  | 'V' :: 'I' :: 'D' :: rest => matchRule3Core rest
  | _ => none

/-- A timestamp rule: a filename yields the captured groups, or no match. -/
def TimestampRule := List Char → Option TSGroups

/-- The ordered rule list `TIMESTAMP_REGEX` of `index.py`. -/
def TIMESTAMP_RULES : List TimestampRule :=
  [matchRule1, matchRule2, matchRule3]

/-- The `for timestamp_format in TIMESTAMP_REGEX:` loop of `get_file_info`:
every rule is tried in order; each match converts its groups with
`datetime(...)` (which can raise `ValueError`) and overwrites
`file_info['filename_timestamp']`. -/
def runRules : List TimestampRule → Option Datetime → List Char →
    Except PyError (Option Datetime)
  | [], acc, _ => .ok acc
  | r :: rs, acc, name =>
    match r name with
    | none => runRules rs acc name
    | some g =>
      match mkDatetime g.year g.month g.day g.hour g.minute g.second with
      | .ok d => runRules rs (some d) name
      | .error e => .error e

/-- The groups of the last rule in the list that matches the filename
(later rules overwrite earlier matches in the source loop). -/
def lastMatch : List TimestampRule → List Char → Option TSGroups
  | [], _ => none
  | r :: rs, name =>
    match lastMatch rs name with
    | some g => some g
    | none => r name

/-! ### SHA-256 (`hashlib.sha256`)

`get_file_info` fingerprints a file with `hashlib.sha256`, fed in 4096-byte
chunks.  `hashlib` is the Python standard library's implementation of
FIPS 180-4 SHA-256; it is embedded here directly from that algorithm, on
`Nat` with explicit reduction mod 2^32.  Its incremental interface is
specified by `hashlib` as: the digest after a sequence of `update` calls is
the digest of the concatenation of their arguments. -/

/-- 2^32, the word modulus of SHA-256. -/
def M32 : Nat := 4294967296

/-- Reduce to a 32-bit word. -/
def w32 (n : Nat) : Nat := n % M32

/-- Right rotation of a 32-bit word. -/
def rotr (n x : Nat) : Nat := w32 ((x >>> n) ||| (x <<< (32 - n)))

/-- Bitwise complement of a 32-bit word. -/
def cpl32 (x : Nat) : Nat := x ^^^ 4294967295

/-- SHA-256 `Ch` function. -/
def shaCh (x y z : Nat) : Nat := (x &&& y) ^^^ (cpl32 x &&& z)

/-- SHA-256 `Maj` function. -/
def shaMaj (x y z : Nat) : Nat := (x &&& y) ^^^ (x &&& z) ^^^ (y &&& z)

/-- SHA-256 Σ₀. -/
def bigS0 (x : Nat) : Nat := rotr 2 x ^^^ rotr 13 x ^^^ rotr 22 x

/-- SHA-256 Σ₁. -/
def bigS1 (x : Nat) : Nat := rotr 6 x ^^^ rotr 11 x ^^^ rotr 25 x

/-- SHA-256 σ₀. -/
def smallS0 (x : Nat) : Nat := rotr 7 x ^^^ rotr 18 x ^^^ (x >>> 3)

/-- SHA-256 σ₁. -/
def smallS1 (x : Nat) : Nat := rotr 17 x ^^^ rotr 19 x ^^^ (x >>> 10)

/-- The 64 SHA-256 round constants, written in decimal. -/
def K64 : List Nat :=
  [1116352408, 1899447441, 3049323471, 3921009573,
   961987163, 1508970993, 2453635748, 2870763221,
   3624381080, 310598401, 607225278, 1426881987,
   1925078388, 2162078206, 2614888103, 3248222580,
   3835390401, 4022224774, 264347078, 604807628,
   770255983, 1249150122, 1555081692, 1996064986,
   2554220882, 2821834349, 2952996808, 3210313671,
   3336571891, 3584528711, 113926993, 338241895,
   666307205, 773529912, 1294757372, 1396182291,
   1695183700, 1986661051, 2177026350, 2456956037,
   2730485921, 2820302411, 3259730800, 3345764771,
   3516065817, 3600352804, 4094571909, 275423344,
   430227734, 506948616, 659060556, 883997877,
   958139571, 1322822218, 1537002063, 1747873779,
   1955562222, 2024104815, 2227730452, 2361852424,
   2428436474, 2756734187, 3204031479, 3329325298]

/-- The SHA-256 working state / hash value: eight 32-bit words. -/
structure Hash8 where
  a : Nat
  b : Nat
  c : Nat
  d : Nat
  e : Nat
  f : Nat
  g : Nat
  h : Nat
  deriving DecidableEq, Repr

/-- The SHA-256 initial hash value, written in decimal. -/
def H0 : Hash8 :=
  ⟨1779033703, 3144134277, 1013904242, 2773480762,
   1359893119, 2600822924, 528734635, 1541459225⟩

/-- One SHA-256 round. -/
def shaRound (s : Hash8) (k w : Nat) : Hash8 :=
  let t1 := w32 (s.h + bigS1 s.e + shaCh s.e s.f s.g + k + w)
  let t2 := w32 (bigS0 s.a + shaMaj s.a s.b s.c)
  ⟨w32 (t1 + t2), s.a, s.b, s.c, w32 (s.d + t1), s.e, s.f, s.g⟩

/-- Assemble big-endian 32-bit words from bytes. -/
def bytesToWords : List Nat → List Nat
  | b0 :: b1 :: b2 :: b3 :: rest =>
    ((((b0 % 256) * 256 + b1 % 256) * 256 + b2 % 256) * 256 + b3 % 256)
      :: bytesToWords rest
  | _ => []

/-- Extend a 16-word block to the 64-word message schedule
(`n` remaining words to append). -/
def extendSchedule : Nat → List Nat → List Nat
  | 0, ws => ws
  | n + 1, ws =>
    let i := ws.length
    let nw := w32 (smallS1 (ws.getD (i - 2) 0) + ws.getD (i - 7) 0
      + smallS0 (ws.getD (i - 15) 0) + ws.getD (i - 16) 0)
    extendSchedule n (ws ++ [nw])

/-- Compress one 64-byte block into the running hash value. -/
def compressBlock (H : Hash8) (block : List Nat) : Hash8 :=
  let ws := extendSchedule 48 (bytesToWords block)
  let fin := (K64.zip ws).foldl (fun s kw => shaRound s kw.1 kw.2) H
  ⟨w32 (H.a + fin.a), w32 (H.b + fin.b), w32 (H.c + fin.c), w32 (H.d + fin.d),
   w32 (H.e + fin.e), w32 (H.f + fin.f), w32 (H.g + fin.g), w32 (H.h + fin.h)⟩

/-- The eight big-endian bytes of the message bit length. -/
def lenBytes (n : Nat) : List Nat :=
  (List.range 8).map fun i => (n >>> (56 - 8 * i)) % 256

/-- SHA-256 padding: `0x80`, zeros to 56 mod 64, then the 64-bit bit length. -/
def padMessage (bs : List Nat) : List Nat :=
  bs ++ [128] ++ List.replicate ((119 - bs.length % 64) % 64) 0
    ++ lenBytes (8 * bs.length)

/-- Split a byte list into `n`-byte chunks, stopping when the list is
exhausted.  `fuel` is a structural-recursion bound on the number of chunks;
every use supplies at least the list length, which suffices for any
`n ≥ 1`. -/
def chunksLoop (n : Nat) : Nat → List Nat → List (List Nat)
  | _, [] => []
  | 0, _ :: _ => []
  | fuel + 1, b :: bs => (b :: bs).take n :: chunksLoop n fuel ((b :: bs).drop n)

/-- Split a byte list into 64-byte blocks. -/
def blocks64 (bs : List Nat) : List (List Nat) :=
  chunksLoop 64 bs.length bs

/-- SHA-256 of a byte sequence, as a `Hash8`. -/
def sha256Words (bs : List Nat) : Hash8 :=
  (blocks64 (padMessage bs)).foldl compressBlock H0

/-- Lowercase hex digit. -/
def hexDigit (n : Nat) : Char :=
  if n < 10 then Char.ofNat (48 + n) else Char.ofNat (87 + n)

/-- Eight lowercase hex characters of a 32-bit word, most significant first. -/
def wordHex (w : Nat) : List Char :=
  (List.range 8).map fun i => hexDigit ((w >>> (28 - 4 * i)) &&& 15)

/-- `hexdigest()`: the 64-character lowercase hex rendering of the hash. -/
def hexOfHash8 (H : Hash8) : String :=
  ⟨wordHex H.a ++ wordHex H.b ++ wordHex H.c ++ wordHex H.d
    ++ wordHex H.e ++ wordHex H.f ++ wordHex H.g ++ wordHex H.h⟩

/-- `hashlib.sha256(bs).hexdigest()` for a complete byte sequence. -/
def sha256hex (bs : List Nat) : String := hexOfHash8 (sha256Words bs)

/-! ### The streaming loop of `get_file_info`

```
sha256_hash = hashlib.sha256()
with open(file_path, 'rb') as f:
    for byte_block in iter(lambda: f.read(4096), b''):
        sha256_hash.update(byte_block)
file_info['sha256'] = sha256_hash.hexdigest()
```
`f.read(4096)` yields successive 4096-byte chunks until the file is
exhausted; `update` extends the hashed message by its argument (the
`hashlib` contract: the final digest is the digest of the concatenation of
all data passed to `update`). -/

/-- The chunk sequence produced by `iter(lambda: f.read(4096), b'')`. -/
def readChunks (bs : List Nat) : List (List Nat) :=
  chunksLoop 4096 bs.length bs

/-- `sha256_hash.update(chunk)`: the message hashed so far grows by the
chunk (the `hashlib` incremental-interface contract). -/
def shaUpdate (buf chunk : List Nat) : List Nat := buf ++ chunk

/-- The fingerprint computed by `get_file_info`'s streaming loop. -/
def pyFileSha256 (content : List Nat) : String :=
  sha256hex ((readChunks content).foldl shaUpdate [])

/-! ### `get_file_info` (the File Inspector) and `index_folder` (the walker) -/

/-- The filesystem view of one regular file, as `get_file_info` observes it:
its base name (`file_path.name`), the timestamps reported by `stat`, whether
`stat` succeeds, whether `open`/`read` succeed, and its byte content. -/
structure SysFile where
  name : String
  ctime : Datetime
  mtime : Datetime
  statOk : Bool
  readable : Bool
  content : List Nat
  deriving DecidableEq, Repr

/-- The `file_info` dictionary returned by `get_file_info`.  `dictKeys`
records the dictionary's keys in insertion order (the base keys set up
front, plus `filename_timestamp_dict`, which the rule loop adds only when
some rule matched).  The `*_dict` breakdown values are the components of
the corresponding `Datetime` field and are not duplicated here. -/
structure FileRecord where
  filename : String
  extension : String
  created_timestamp : Datetime
  modified_timestamp : Datetime
  type : String
  filename_timestamp : Option Datetime
  sha256 : String
  dictKeys : List String
  deriving DecidableEq, Repr

/-- The picture-extension set of `index.py` (suffixes carry the dot). -/
def PICTURE_EXTENSIONS : List String :=
  [".jpg", ".jpeg", ".png", ".gif", ".bmp", ".tiff"]

/-- The video-extension set of `index.py`. -/
def VIDEO_EXTENSIONS : List String :=
  [".mp4", ".mov", ".avi", ".mkv", ".flv", ".wmv"]

/-- The media-type branch of `get_file_info`: `type` starts `'unknown'`,
becomes `'picture'` or `'video'` when the lower-cased extension is in the
corresponding set. -/
def fileType (ext : String) : String :=
  if PICTURE_EXTENSIONS.contains (pyLower ext) then "picture"
  else if VIDEO_EXTENSIONS.contains (pyLower ext) then "video"
  else "unknown"

/-- The keys the `file_info` dictionary holds when it is constructed,
in insertion order. -/
def BASE_KEYS : List String :=
  ["filename", "extension", "created_timestamp", "created_timestamp_dict",
   "modified_timestamp", "modified_timestamp_dict", "type",
   "filename_timestamp", "sha256"]

/-- `get_file_info(file_path)`: `stat` (raising `IOError` when the file
cannot be stat'ed), build the dictionary, classify by extension, run the
timestamp-rule loop (which can raise `ValueError` on an invalid parsed
date), then hash the content in 4096-byte chunks (raising `IOError` when
the file cannot be opened or read). -/
def get_file_info (f : SysFile) : Except PyError FileRecord :=
  if f.statOk = false then .error .ioError
  else
    match runRules TIMESTAMP_RULES none f.name.data with
    | .error e => .error e
    | .ok ft =>
      if f.readable = false then .error .ioError
      else
        .ok
          { filename := f.name
            extension := pySuffix f.name
            created_timestamp := f.ctime
            modified_timestamp := f.mtime
            type := fileType (pySuffix f.name)
            filename_timestamp := ft
            sha256 := pyFileSha256 f.content
            dictKeys := BASE_KEYS ++
              (if TIMESTAMP_RULES.any (fun r => (r f.name.data).isSome)
               then ["filename_timestamp_dict"] else []) }

/-- The root directory as `index_folder` observes it: whether
`folder_path.exists() and folder_path.is_dir()` holds, and the sequence of
regular files that `rglob('*')` filtered by `is_file()` yields, in
traversal order. -/
structure Folder where
  existsDir : Bool
  files : List SysFile
  deriving DecidableEq, Repr

/-- The walker's inner loop: `for file in ...: indexed_files.append(
get_file_info(file))`.  There is no exception handling around the call, so
the first error raised by `get_file_info` propagates out of the loop. -/
def inspectAll : List SysFile → Except PyError (List FileRecord)
  | [] => .ok []
  | f :: fs =>
    match get_file_info f with
    | .error e => .error e
    | .ok r =>
      match inspectAll fs with
      | .error e => .error e
      | .ok rs => .ok (r :: rs)

/-- `index_folder(folder)`: `ValueError` when the root does not exist or is
not a directory, otherwise the per-file loop. -/
def index_folder (fo : Folder) : Except PyError (List FileRecord) :=
  if fo.existsDir = false then .error .valueError
  else inspectAll fo.files

/-! ### The catalog (`database.py`) -/

/-- The `FileInfo` dataclass of `database.py`. -/
structure FileInfo where
  filename : String
  path : String
  sha256 : String
  created_timestamp : Option Datetime
  modified_timestamp : Option Datetime
  type : String
  deriving DecidableEq, Repr

/-- A row of the `files` table. -/
structure FilesRow where
  id : Nat
  filename : String
  path : String
  sha256 : String
  created_timestamp : Option String
  modified_timestamp : Option String
  type : String
  deriving DecidableEq, Repr

/-- A row of the `duplicates` table. -/
structure DupRow where
  id : Nat
  sha256 : String
  filename : String
  path : String
  created_timestamp : Option String
  modified_timestamp : Option String
  deriving DecidableEq, Repr

/-- The state of a `Database` object together with its backing store.
`connOpen` is whether `_conn`/`_cursor` are live (the constructor sets
both; `close` sets both to `None` together).  The two table-existence
flags model whether `CREATE TABLE` has run on the backing file. -/
structure DBState where
  connOpen : Bool
  filesTableExists : Bool
  dupTableExists : Bool
  files : List FilesRow
  duplicates : List DupRow
  deriving DecidableEq, Repr

/-- The view of a `duplicates` row that `get_files_by_hash` returns. -/
structure DupView where
  filename : String
  path : String
  created_timestamp : Option String
  modified_timestamp : Option String
  deriving DecidableEq, Repr

/-- `Database.close()`: `self._cursor.close()` dereferences a `None`
cursor when already closed (`AttributeError`); otherwise both `_cursor`
and `_conn` become `None`. -/
def dbClose (db : DBState) : Except PyError DBState :=
  if db.connOpen = false then .error .attributeError
  else .ok { db with connOpen := false }

/-- `Database.initialize_database()`: raises `ConnectionError` when the
cursor or connection is `None`; otherwise runs the two
`CREATE TABLE IF NOT EXISTS` statements (creating each table only when
absent, leaving existing rows untouched) and commits. -/
def init_database (db : DBState) : Except PyError DBState :=
  if db.connOpen = false then .error .connectionError
  else .ok { db with filesTableExists := true, dupTableExists := true }

/-- `Database.insert_file_info(file_info)`: the `isinstance` check is
enforced by the Lean type of the argument; `self._cursor.execute`
dereferences a `None` cursor when the connection is closed
(`AttributeError`); an `INSERT` into a missing table is an
`OperationalError`.  The `INSERT INTO files` runs first; only then does
the `SELECT id FROM files WHERE sha256 = ?` run, on the same connection,
which sees the uncommitted row just inserted. -/
def insert_file_info (db : DBState) (fi : FileInfo) : Except PyError DBState :=
  if db.connOpen = false then .error .attributeError
  else if db.filesTableExists = false then .error .operationalError
  else
    let row : FilesRow :=
      { id := db.files.length + 1
        filename := fi.filename
        path := fi.path
        sha256 := fi.sha256
        created_timestamp := fi.created_timestamp.map isoformat
        modified_timestamp := fi.modified_timestamp.map isoformat
        type := fi.type }
    let files2 := db.files ++ [row]
    if files2.any (fun r => r.sha256 == fi.sha256) then
      if db.dupTableExists = false then .error .operationalError
      else
        .ok { db with
              files := files2
              duplicates := db.duplicates ++
                [{ id := db.duplicates.length + 1
                   sha256 := fi.sha256
                   filename := fi.filename
                   path := fi.path
                   created_timestamp := fi.created_timestamp.map isoformat
                   modified_timestamp := fi.modified_timestamp.map isoformat }] }
    else .ok { db with files := files2 }

/-- `Database.file_exists_by_filename(filename)`. -/
def file_exists_by_filename (db : DBState) (filename : String) :
    Except PyError Bool :=
  if db.connOpen = false then .error .attributeError
  else if db.filesTableExists = false then .error .operationalError
  else .ok (db.files.any fun r => r.filename == filename)

/-- `Database.file_exists_by_hash(sha256)`. -/
def file_exists_by_hash (db : DBState) (sha256 : String) :
    Except PyError Bool :=
  if db.connOpen = false then .error .attributeError
  else if db.filesTableExists = false then .error .operationalError
  else .ok (db.files.any fun r => r.sha256 == sha256)

/-- `Database.get_files_by_hash(sha256)`: all `duplicates` rows for the
hash, as row views, or `None` for an empty result. -/
def get_files_by_hash (db : DBState) (sha256 : String) :
    Except PyError (Option (List DupView)) :=
  if db.connOpen = false then .error .attributeError
  else if db.dupTableExists = false then .error .operationalError
  else
    let rows := (db.duplicates.filter fun r => r.sha256 == sha256).map
      fun r => DupView.mk r.filename r.path r.created_timestamp
        r.modified_timestamp
    .ok (if rows.isEmpty then none else some rows)

/-! ### Shared sample inputs -/

/-- A fixed filesystem timestamp for sample files. -/
def dt2020 : Datetime := ⟨2020, 1, 1, 0, 0, 0⟩

/-- A stat-able, readable, empty sample file with the given name. -/
def plainFile (n : String) : SysFile := ⟨n, dt2020, dt2020, true, true, []⟩

/-- SHA-256 hex digest of the empty byte sequence. -/
def emptySha : String :=
  "e3b0c44298fc1c149afbf4c8996fb92427ae41e4649b934ca495991b7852b855"

/-- The record `get_file_info` produces for a `plainFile`. -/
def plainRecord (n ext ty : String) (ft : Option Datetime) (matched : Bool) :
    FileRecord :=
  ⟨n, ext, dt2020, dt2020, ty, ft, emptySha,
   BASE_KEYS ++ (if matched then ["filename_timestamp_dict"] else [])⟩

/-! ### Helper lemmas -/

/-- Inversion for a successful `get_file_info`: the inspected file was
stat-able and readable, and each record field is the stated function of
the file. -/
theorem get_file_info_ok_spec (f : SysFile) (r : FileRecord)
    (h : get_file_info f = .ok r) :
    f.statOk = true ∧ f.readable = true ∧
    runRules TIMESTAMP_RULES none f.name.data = .ok r.filename_timestamp ∧
    r.filename = f.name ∧ r.extension = pySuffix f.name ∧
    r.type = fileType (pySuffix f.name) ∧
    r.sha256 = pyFileSha256 f.content ∧
    r.dictKeys = BASE_KEYS ++
      (if TIMESTAMP_RULES.any (fun rule => (rule f.name.data).isSome)
       then ["filename_timestamp_dict"] else []) := by
  unfold get_file_info at h
  split at h
  · cases h
  · rename_i hstat
    split at h
    · cases h
    · rename_i ft hrun
      split at h
      · cases h
      · rename_i hread
        injection h with h2
        subst h2
        simp only [Bool.not_eq_false] at hstat hread
        exact ⟨hstat, hread, hrun, rfl, rfl, rfl, rfl, rfl⟩

/-- The rule loop of `get_file_info` keeps the timestamp of the last rule
in the list that matched: when the loop completes without raising, its
result is the initial value if no rule matched, and otherwise the
converted groups of the last matching rule. -/
theorem runRules_eq_lastMatch (rules : List TimestampRule) (name : List Char) :
    ∀ acc res, runRules rules acc name = .ok res →
      (lastMatch rules name = none ∧ res = acc) ∨
      (∃ g d, lastMatch rules name = some g ∧
        mkDatetime g.year g.month g.day g.hour g.minute g.second = .ok d ∧
        res = some d) := by
  induction rules with
  | nil =>
    intro acc res h
    simp only [runRules] at h
    injection h with h2
    exact Or.inl ⟨rfl, h2.symm⟩
  | cons r rs ih =>
    intro acc res h
    simp only [runRules] at h
    split at h
    · rename_i hr
      rcases ih acc res h with ⟨h1, h2⟩ | ⟨g, d, h1, h2, h3⟩
      · exact Or.inl ⟨by simp [lastMatch, h1, hr], h2⟩
      · exact Or.inr ⟨g, d, by simp [lastMatch, h1], h2, h3⟩
    · rename_i g0 hr
      split at h
      · rename_i d0 hd
        rcases ih (some d0) res h with ⟨h1, h2⟩ | ⟨g, d, h1, h2, h3⟩
        · exact Or.inr ⟨g0, d0, by simp [lastMatch, h1, hr], hd, h2⟩
        · exact Or.inr ⟨g, d, by simp [lastMatch, h1], h2, h3⟩
      · cases h

/-- Folding the `update` steps accumulates the concatenation of the chunks. -/
theorem foldl_shaUpdate (l : List (List Nat)) :
    ∀ init, l.foldl shaUpdate init = init ++ l.flatten := by
  induction l with
  | nil => intro init; simp
  | cons c cs ih => intro init; simp [shaUpdate, ih, List.append_assoc]

/-- With enough fuel, chunks of any positive size concatenate back to the
original list. -/
theorem chunksLoop_flatten (n : Nat) (hn : 1 ≤ n) :
    ∀ fuel bs, bs.length ≤ fuel → (chunksLoop n fuel bs).flatten = bs := by
  intro fuel
  induction fuel with
  | zero =>
    intro bs h
    cases bs with
    | nil => rfl
    | cons b bs => simp at h
  | succ fuel ih =>
    intro bs h
    cases bs with
    | nil => rfl
    | cons b bs =>
      rw [chunksLoop]
      simp only [List.flatten_cons]
      rw [ih ((b :: bs).drop n) (by
        simp only [List.length_drop, List.length_cons] at h ⊢; omega)]
      exact List.take_append_drop n (b :: bs)

/-- The 4096-byte chunks of a file concatenate back to its content. -/
theorem readChunks_flatten (bs : List Nat) : (readChunks bs).flatten = bs :=
  chunksLoop_flatten 4096 (by omega) bs.length bs le_rfl

/-- When every file of the list inspects successfully, the walker loop
returns one record per file. -/
theorem inspectAll_all_ok (fs : List SysFile)
    (h : ∀ f ∈ fs, ∃ r, get_file_info f = .ok r) :
    ∃ rs, inspectAll fs = .ok rs ∧ rs.length = fs.length := by
  induction fs with
  | nil => exact ⟨[], rfl, rfl⟩
  | cons f fs ih =>
    obtain ⟨r, hr⟩ := h f (by simp)
    obtain ⟨rs, hrs, hlen⟩ := ih (fun g hg => h g (by simp [hg]))
    exact ⟨r :: rs, by simp [inspectAll, hr, hrs], by simp [hlen]⟩

/-- The first failing inspection propagates out of the walker loop. -/
theorem inspectAll_first_error (pre : List SysFile) (f : SysFile)
    (post : List SysFile) (e : PyError)
    (hpre : ∀ g ∈ pre, ∃ r, get_file_info g = .ok r)
    (hf : get_file_info f = .error e) :
    inspectAll (pre ++ f :: post) = .error e := by
  induction pre with
  | nil => simp [inspectAll, hf]
  | cons g gs ih =>
    obtain ⟨r, hr⟩ := hpre g (by simp)
    have htail := ih (fun g2 hg2 => hpre g2 (by simp [hg2]))
    simp [inspectAll, hr, htail]

/-! ### The claims -/

/-- Three records sharing one content fingerprint (files A, B, C with
identical content). -/
def fiA : FileInfo := ⟨"a.jpg", "/src/a.jpg", "f1f1", none, none, "picture"⟩

/-- Second record with the same fingerprint as `fiA`. -/
def fiB : FileInfo := ⟨"b.jpg", "/src/b.jpg", "f1f1", none, none, "picture"⟩

/-- Third record with the same fingerprint as `fiA`. -/
def fiC : FileInfo := ⟨"c.jpg", "/src/c.jpg", "f1f1", none, none, "picture"⟩

/-- A freshly initialized catalog: open connection, both tables created,
no rows. -/
def emptyCatalog : DBState := ⟨true, true, true, [], []⟩

/-- C1: evaluating `insert_file_info` at the failing input.  The claim says
a duplicate-table row is appended iff a primary row with the same
fingerprint existed before the insert, so inserting A into an empty
catalog should yield 1 primary row and 0 duplicate rows, and inserting
A, B, C with identical content should leave only B and C in the duplicate
table.  The code instead runs the `SELECT` after the `INSERT`, always
finds the row it just inserted, and therefore appends a duplicate row on
every insert: A lands in the duplicate table too. -/
theorem c1_duplicate_on_first_insert :
    ((insert_file_info emptyCatalog fiA).map fun s =>
        (s.files.length, s.duplicates.length)) = .ok (1, 1) ∧
    ((insert_file_info emptyCatalog fiA).map fun s =>
        s.duplicates.map fun d => d.filename) = .ok ["a.jpg"] ∧
    (((insert_file_info emptyCatalog fiA).bind fun s1 =>
        (insert_file_info s1 fiB).bind fun s2 =>
          insert_file_info s2 fiC).map fun s =>
        (s.files.map fun r => r.filename,
         s.duplicates.map fun d => d.filename))
      = .ok (["a.jpg", "b.jpg", "c.jpg"], ["a.jpg", "b.jpg", "c.jpg"]) :=
  ⟨rfl, rfl, rfl⟩

/-- A stat-able but unreadable sample file. -/
def unreadableFile : SysFile := ⟨"bad.jpg", dt2020, dt2020, true, false, []⟩

/-- A directory holding two readable files around one unreadable file. -/
def mixedFolder : Folder :=
  ⟨true, [plainFile "good1.jpg", unreadableFile, plainFile "good2.jpg"]⟩

/-- C2 counterexample: a directory with one unreadable file between two
readable files.  The claim says the walk does not abort and returns the
two successful records with the failure reported separately; the code has
no per-file exception handling, so `index_folder` propagates the
`IOError` and returns no records at all, although both readable files
inspect successfully on their own. -/
theorem c2_walk_aborts_counterexample :
    index_folder mixedFolder = .error .ioError ∧
    (∃ r, get_file_info (plainFile "good1.jpg") = .ok r) ∧
    (∃ r, get_file_info (plainFile "good2.jpg") = .ok r) :=
  ⟨rfl, ⟨_, rfl⟩, ⟨_, rfl⟩⟩

/-- C2 (amended): the walk aborts at the first per-file inspection
failure.  When every file under the root inspects successfully the walk
returns one record per file; when some file fails, `index_folder`
propagates the first failing file's error and returns no records. -/
theorem c2_amended_walk_propagates_first_error :
    (∀ fo : Folder, fo.existsDir = true →
      (∀ f ∈ fo.files, ∃ r, get_file_info f = .ok r) →
      ∃ rs, index_folder fo = .ok rs ∧ rs.length = fo.files.length) ∧
    (∀ (fo : Folder) (pre : List SysFile) (f : SysFile)
        (post : List SysFile) (e : PyError), fo.existsDir = true →
      fo.files = pre ++ f :: post →
      (∀ g ∈ pre, ∃ r, get_file_info g = .ok r) →
      get_file_info f = .error e →
      index_folder fo = .error e) := by
  constructor
  · intro fo hdir hall
    obtain ⟨rs, hrs, hlen⟩ := inspectAll_all_ok fo.files hall
    exact ⟨rs, by simp [index_folder, hdir, hrs], hlen⟩
  · intro fo pre f post e hdir hsplit hpre hf
    simp only [index_folder, hdir, Bool.true_eq_false, if_false, hsplit]
    exact inspectAll_first_error pre f post e hpre hf

/-- C2 witness: the amended statement applied to the mixed directory. -/
theorem c2_amended_witness :
    mixedFolder.existsDir = true ∧
    mixedFolder.files =
      [plainFile "good1.jpg"] ++ unreadableFile :: [plainFile "good2.jpg"] ∧
    get_file_info unreadableFile = .error .ioError ∧
    index_folder mixedFolder = .error .ioError := by
  refine ⟨rfl, rfl, rfl, ?_⟩
  exact c2_amended_walk_propagates_first_error.2 mixedFolder
    [plainFile "good1.jpg"] unreadableFile [plainFile "good2.jpg"] .ioError
    rfl rfl (by intro g hg; simp at hg; subst hg; exact ⟨_, rfl⟩) rfl

/-- C3: every timestamp rule is evaluated (no early exit), later matches
overwrite earlier ones, and the timestamp kept in a successfully produced
record is the one converted from the groups of the last rule in
`TIMESTAMP_REGEX` that matched the filename. -/
theorem c3_last_matching_rule_wins (f : SysFile) (r : FileRecord)
    (h : get_file_info f = .ok r) :
    (lastMatch TIMESTAMP_RULES f.name.data = none ∧
      r.filename_timestamp = none) ∨
    (∃ g d, lastMatch TIMESTAMP_RULES f.name.data = some g ∧
      mkDatetime g.year g.month g.day g.hour g.minute g.second = .ok d ∧
      r.filename_timestamp = some d) := by
  obtain ⟨-, -, hrun, -⟩ := get_file_info_ok_spec f r h
  exact runRules_eq_lastMatch TIMESTAMP_RULES f.name.data none
    r.filename_timestamp hrun

/-- A sample device-prefixed file. -/
def imgFile : SysFile := plainFile "IMG_20190830_214259.jpg"

/-- The record `get_file_info` produces for `imgFile`. -/
def imgRecord : FileRecord :=
  plainRecord "IMG_20190830_214259.jpg" ".jpg" "picture"
    (some ⟨2019, 8, 30, 21, 42, 59⟩) true

/-- C3 witness: the last-matching-rule theorem applied to a concrete
device-prefixed filename. -/
theorem c3_witness :
    get_file_info imgFile = .ok imgRecord ∧
    ((lastMatch TIMESTAMP_RULES imgFile.name.data = none ∧
        imgRecord.filename_timestamp = none) ∨
      (∃ g d, lastMatch TIMESTAMP_RULES imgFile.name.data = some g ∧
        mkDatetime g.year g.month g.day g.hour g.minute g.second = .ok d ∧
        imgRecord.filename_timestamp = some d)) :=
  ⟨rfl, c3_last_matching_rule_wins imgFile imgRecord rfl⟩

/-- C4: the literal filenames of the spec.  `"20211012_123045.jpg"` parses
to 2021-10-12T12:30:45; `"IMG_20190830_214259.jpg"` and its burst variant
`"IMG_20190830_214259_1.jpg"` both parse to 2019-08-30T21:42:59; and
`"random_name.jpg"` parses to no filename timestamp while still producing
a record classified `picture`. -/
theorem c4_literal_filenames :
    (get_file_info (plainFile "20211012_123045.jpg")).map
        (fun r => r.filename_timestamp)
      = .ok (some ⟨2021, 10, 12, 12, 30, 45⟩) ∧
    (get_file_info (plainFile "IMG_20190830_214259.jpg")).map
        (fun r => r.filename_timestamp)
      = .ok (some ⟨2019, 8, 30, 21, 42, 59⟩) ∧
    (get_file_info (plainFile "IMG_20190830_214259_1.jpg")).map
        (fun r => r.filename_timestamp)
      = .ok (some ⟨2019, 8, 30, 21, 42, 59⟩) ∧
    (get_file_info (plainFile "random_name.jpg")).map
        (fun r => (r.filename_timestamp, r.type)) = .ok (none, "picture") :=
  ⟨rfl, rfl, rfl, rfl⟩

/-- C5: the media type of a record is a function of the extension only —
two successfully inspected files with the same suffix get the same type —
and is computed by lower-casing the extension and looking it up in the two
fixed sets: picture-set membership gives `picture`, video-set membership
gives `video`, anything else (including the empty suffix) gives
`unknown`; concretely `photo.JPG` is a picture, `clip.MKV` a video and
`notes.txt` unknown. -/
theorem c5_media_type_from_extension :
    (∀ f r, get_file_info f = .ok r → r.type = fileType (pySuffix f.name)) ∧
    (∀ f g rf rg, get_file_info f = .ok rf → get_file_info g = .ok rg →
      pySuffix f.name = pySuffix g.name → rf.type = rg.type) ∧
    (∀ e, PICTURE_EXTENSIONS.contains (pyLower e) = true →
      fileType e = "picture") ∧
    (∀ e, PICTURE_EXTENSIONS.contains (pyLower e) = false →
      VIDEO_EXTENSIONS.contains (pyLower e) = true → fileType e = "video") ∧
    (∀ e, PICTURE_EXTENSIONS.contains (pyLower e) = false →
      VIDEO_EXTENSIONS.contains (pyLower e) = false →
      fileType e = "unknown") ∧
    (get_file_info (plainFile "photo.JPG")).map (fun r => r.type)
      = .ok "picture" ∧
    (get_file_info (plainFile "clip.MKV")).map (fun r => r.type)
      = .ok "video" ∧
    (get_file_info (plainFile "notes.txt")).map (fun r => r.type)
      = .ok "unknown" ∧
    fileType "" = "unknown" := by
  refine ⟨?_, ?_, ?_, ?_, ?_, rfl, rfl, rfl, rfl⟩
  · intro f r h
    exact (get_file_info_ok_spec f r h).2.2.2.2.2.1
  · intro f g rf rg hf hg he
    rw [(get_file_info_ok_spec f rf hf).2.2.2.2.2.1,
        (get_file_info_ok_spec g rg hg).2.2.2.2.2.1, he]
  · intro e he; simp at he; simp [fileType, he]
  · intro e hp hv; simp at hp hv; simp [fileType, hp, hv]
  · intro e hp hv; simp at hp hv; simp [fileType, hp, hv]

/-- C5 witness: the picture branch applied at the `.JPG` suffix. -/
theorem c5_witness :
    PICTURE_EXTENSIONS.contains (pyLower ".JPG") = true ∧
    fileType ".JPG" = "picture" :=
  ⟨rfl, c5_media_type_from_extension.2.2.1 ".JPG" rfl⟩

/-- C6: the fingerprint computed by streaming the content in 4096-byte
chunks equals the SHA-256 hex digest of the complete byte content; every
successful record carries exactly that digest of its file's bytes, so two
files with identical bytes — whatever their names, paths or timestamps —
get identical fingerprints, and hashing the same bytes twice gives the
same fingerprint. -/
theorem c6_fingerprint_streaming :
    (∀ bs, pyFileSha256 bs = sha256hex bs) ∧
    (∀ f r, get_file_info f = .ok r → r.sha256 = sha256hex f.content) ∧
    (∀ f g rf rg, get_file_info f = .ok rf → get_file_info g = .ok rg →
      f.content = g.content → rf.sha256 = rg.sha256) := by
  have hstream : ∀ bs, pyFileSha256 bs = sha256hex bs := by
    intro bs
    unfold pyFileSha256
    rw [foldl_shaUpdate, List.nil_append, readChunks_flatten]
  refine ⟨hstream, ?_, ?_⟩
  · intro f r h
    rw [(get_file_info_ok_spec f r h).2.2.2.2.2.2.1, hstream]
  · intro f g rf rg hf hg hc
    rw [(get_file_info_ok_spec f rf hf).2.2.2.2.2.2.1,
        (get_file_info_ok_spec g rg hg).2.2.2.2.2.2.1,
        hstream, hstream, hc]

/-- C6 witness: two files with different names but identical content get
the same fingerprint. -/
theorem c6_witness :
    get_file_info (plainFile "same1.jpg")
      = .ok (plainRecord "same1.jpg" ".jpg" "picture" none false) ∧
    get_file_info (plainFile "same2.jpg")
      = .ok (plainRecord "same2.jpg" ".jpg" "picture" none false) ∧
    (plainRecord "same1.jpg" ".jpg" "picture" none false).sha256 =
      (plainRecord "same2.jpg" ".jpg" "picture" none false).sha256 :=
  ⟨rfl, rfl,
    c6_fingerprint_streaming.2.2 (plainFile "same1.jpg")
      (plainFile "same2.jpg") _ _ rfl rfl rfl⟩

/-- C7 counterexample: the record `get_file_info` builds for a concrete
readable file has no `path` key at all — the claim that every inspection
record carries the file's absolute path as a field is false. -/
theorem c7_no_path_counterexample :
    (get_file_info (plainFile "a.jpg")).map
      (fun r => r.dictKeys.contains "path") = .ok false := rfl

/-- C7 (amended): every record produced by the per-file inspection carries
the file's base name under the `filename` key, but no `path` key — the
absolute path is not a field of the inspection record (only the catalog's
separate `FileInfo` dataclass has a `path` field). -/
theorem c7_amended_record_fields (f : SysFile) (r : FileRecord)
    (h : get_file_info f = .ok r) :
    r.filename = f.name ∧ "filename" ∈ r.dictKeys ∧ "path" ∉ r.dictKeys := by
  obtain ⟨-, -, -, hname, -, -, -, hkeys⟩ := get_file_info_ok_spec f r h
  refine ⟨hname, ?_, ?_⟩ <;> rw [hkeys]
  · simp [BASE_KEYS]
  · split <;> decide

/-- C7 witness: the amended statement applied to a concrete file. -/
theorem c7_witness :
    get_file_info (plainFile "b.jpg")
      = .ok (plainRecord "b.jpg" ".jpg" "picture" none false) ∧
    ((plainRecord "b.jpg" ".jpg" "picture" none false).filename
        = (plainFile "b.jpg").name ∧
      "filename" ∈ (plainRecord "b.jpg" ".jpg" "picture" none false).dictKeys ∧
      "path" ∉ (plainRecord "b.jpg" ".jpg" "picture" none false).dictKeys) :=
  ⟨rfl, c7_amended_record_fields (plainFile "b.jpg") _ rfl⟩

/-- C8: on any catalog whose connection is open, `initialize_database`
succeeds, creates the two tables when absent, leaves every existing row of
both tables unchanged, and calling it again on the result succeeds and
changes nothing. -/
theorem c8_init_idempotent (db : DBState) (h : db.connOpen = true) :
    ∃ db2, init_database db = .ok db2 ∧
      db2.filesTableExists = true ∧ db2.dupTableExists = true ∧
      db2.files = db.files ∧ db2.duplicates = db.duplicates ∧
      init_database db2 = .ok db2 := by
  refine ⟨{ db with filesTableExists := true, dupTableExists := true },
    ?_, rfl, rfl, rfl, rfl, ?_⟩ <;> simp [init_database, h]

/-- An open catalog on which no table has been created yet. -/
def sampleOpenDB : DBState := ⟨true, false, false, [], []⟩

/-- C8 witness: the idempotence theorem applied to a fresh open catalog. -/
theorem c8_witness :
    sampleOpenDB.connOpen = true ∧
    (∃ db2, init_database sampleOpenDB = .ok db2 ∧
      db2.filesTableExists = true ∧ db2.dupTableExists = true ∧
      db2.files = sampleOpenDB.files ∧
      db2.duplicates = sampleOpenDB.duplicates ∧
      init_database db2 = .ok db2) :=
  ⟨rfl, c8_init_idempotent sampleOpenDB rfl⟩

/-- C9 counterexample: the claim says any single character is accepted
between the time components of rule 1, but the unescaped `.` of Python
`re` does not match a newline: with newline separators the rule does not
match, and the file parses to no filename timestamp. -/
theorem c9_newline_counterexample :
    matchRule1 "2021-10-12 12\n30\n45.jpg".data = none ∧
    (get_file_info (plainFile "2021-10-12 12\n30\n45.jpg")).map
      (fun r => r.filename_timestamp) = .ok none :=
  ⟨rfl, rfl⟩

/-- The rule-1 shaped filename `2021-10-12 12C30C45` with the two
time-component separators `c1`, `c2` left free. -/
def sepName (c1 c2 : Char) : String :=
  ⟨['2', '0', '2', '1', '-', '1', '0', '-', '1', '2', ' ',
    '1', '2', c1, '3', '0', c2, '4', '5']⟩

/-- C9 (amended): the separators between the hour, minute and second
groups of rule 1 are the unescaped regex `.`, so any single character
other than a newline is accepted there; in particular the colon-separated
filename `2021-10-12 12:30:45.jpg` parses to 2021-10-12T12:30:45. -/
theorem c9_amended_separators :
    (∀ c1 c2 : Char, c1 ≠ '\n' → c2 ≠ '\n' →
      matchRule1 (sepName c1 c2).data = some ⟨2021, 10, 12, 12, 30, 45⟩) ∧
    (get_file_info (plainFile "2021-10-12 12:30:45.jpg")).map
      (fun r => r.filename_timestamp)
      = .ok (some ⟨2021, 10, 12, 12, 30, 45⟩) := by
  refine ⟨?_, rfl⟩
  intro c1 c2 h1 h2
  have b1 : (c1 != '\n') = true := by simp [h1]
  have b2 : (c2 != '\n') = true := by simp [h2]
  simp [sepName, matchRule1, b1, b2]
  decide

/-- C9 witness: the amended statement applied to colon separators. -/
theorem c9_witness :
    (':' ≠ '\n' ∧
      matchRule1 (sepName ':' ':').data
        = some ⟨2021, 10, 12, 12, 30, 45⟩) :=
  ⟨by decide, c9_amended_separators.1 ':' ':' (by decide) (by decide)⟩

/-- C10: after a successful `close()`, only `initialize_database` detects
the closed connection and raises `ConnectionError`; the four other
operations dereference the `None` cursor and raise `AttributeError`
instead, so the error kind depends on which operation is invoked. -/
theorem c10_closed_connection_errors (db c : DBState)
    (h : dbClose db = .ok c) :
    init_database c = .error .connectionError ∧
    (∀ fi, insert_file_info c fi = .error .attributeError) ∧
    (∀ s, file_exists_by_filename c s = .error .attributeError) ∧
    (∀ s, file_exists_by_hash c s = .error .attributeError) ∧
    (∀ s, get_files_by_hash c s = .error .attributeError) := by
  have hc : c.connOpen = false := by
    unfold dbClose at h
    split at h
    · cases h
    · injection h with h2
      subst h2
      rfl
  exact ⟨by simp [init_database, hc],
    fun fi => by simp [insert_file_info, hc],
    fun s => by simp [file_exists_by_filename, hc],
    fun s => by simp [file_exists_by_hash, hc],
    fun s => by simp [get_files_by_hash, hc]⟩

/-- An open catalog with both tables present. -/
def openDemoDB : DBState := ⟨true, true, true, [], []⟩

/-- The same catalog after `close()`. -/
def closedDemoDB : DBState := ⟨false, true, true, [], []⟩

/-- C10 witness: the closed-connection theorem applied to a concrete
catalog. -/
theorem c10_witness :
    dbClose openDemoDB = .ok closedDemoDB ∧
    (init_database closedDemoDB = .error .connectionError ∧
      (∀ fi, insert_file_info closedDemoDB fi = .error .attributeError) ∧
      (∀ s, file_exists_by_filename closedDemoDB s
        = .error .attributeError) ∧
      (∀ s, file_exists_by_hash closedDemoDB s = .error .attributeError) ∧
      (∀ s, get_files_by_hash closedDemoDB s = .error .attributeError)) :=
  ⟨rfl, c10_closed_connection_errors openDemoDB closedDemoDB rfl⟩

end SortPy
